import Mathlib

/-!
# cnr_param: typed extraction of values from YAML nodes

A shallow embedding of `include/cnr_param/impl/yaml/cnr_param_yaml_cpp_impl.hpp`.

Conventions of the embedding.

* A `YAML::Node` is a value of the inductive type `Node`.
* A C++ out-parameter becomes an argument (the value held before the call)
  and a component of the result (the value held after the call).
* A `std::stringstream& what` / `std::string& what` is a `String` threaded
  through the call; `what << x` is `what ++ x`.
* A `std::vector<T>` and a `std::array<T,N>` are a `List T`.
* Text written to `std::cerr` is not part of the state and is dropped.
* Functions of the yaml-cpp library, of the C++ run time and of headers of
  the repository that are not part of the translated file are parameters,
  collected in the structures `Convert`, `ElemDecoder`, `Decoder` and
  `Loader`; the rendering `operator<<` of a node is the parameter `dump`.
* The overloads of `get_sequence` and `get` carry distinct names.
-/

namespace cnr.param

/-! ## Document nodes -/

/-- A node of a parsed YAML document (`YAML::Node`, `node_t`), with the five
kinds of `YAML::NodeType`; `undefined` is the kind of a handle that is valid
but not defined (`IsDefined()` is false). -/
inductive Node where
  | undefined
  | null
  | scalar (text : String)
  | sequence (children : List Node)
  | map (entries : List (String × Node))

namespace Node

/-- The test `node.IsDefined()`, which is also `bool(node)`. -/
def IsDefined : Node → Bool
  | .undefined => false
  | _ => true

/-- The test `node.IsScalar()`. -/
def IsScalar : Node → Bool
  | .scalar _ => true
  | _ => false

/-- The test `node.IsSequence()`. -/
def IsSequence : Node → Bool
  | .sequence _ => true
  | _ => false

/-- The test `node.IsMap()`. -/
def IsMap : Node → Bool
  | .map _ => true
  | _ => false

/-- The value `node.size()`: the number of children of a sequence, the number
of entries of a map, 0 for every other kind. -/
def size : Node → Nat
  | .sequence cs => cs.length
  | .map es => es.length
  | _ => 0

/-- The children `node[0]`, ..., `node[node.size()-1]` of a sequence node, in
the order in which the loops `for (i = 0; i < node.size(); i++)` visit them.
The translated code runs these loops on sequence nodes only. -/
def children : Node → List Node
  | .sequence cs => cs
  | _ => []

end Node

/-! ## Diagnostics -/

/-- The streamed value `std::endl`. -/
def endl : String := "\n"

/-- The text `<< "Node: " << std::endl << node << std::endl` that closes most
diagnostics. -/
def nodeText (dump : Node → String) (node : Node) : String :=
  "Node: " ++ endl ++ dump node ++ endl

/-! ## Per-element decoders used inside the sequence loop -/

/-- Outcome of one of the two-argument calls `get_scalar<T>(node[i], v)`,
`get_sequence<T>(node[i], v)`, `get_map<T>(node[i], v)`: either the call
returns a flag and leaves a value in `v`, or it throws. -/
inductive Decoded (T : Type) where
  | returned (ok : Bool) (v : T)
  | raised (msg : String)

/-- What the sequence loop needs to know about the element type `T`: the
value `T()`, the name printed by `boost::typeindex` for `std::vector<T>`, and
the three two-argument element decoders (declared outside the translated
file). -/
structure ElemDecoder (T : Type) where
  dflt : T
  pretty_name : String
  vector_pretty_name : String
  get_scalar : Node → T → Decoded T
  get_sequence : Node → T → Decoded T
  get_map : Node → T → Decoded T

/-- The call `ret.resize(n)` of a `std::vector`: truncate, or pad with
value-initialised elements. -/
def vector_resize {T : Type} (ret : List T) (n : Nat) (dflt : T) : List T :=
  ret.take n ++ List.replicate (n - ret.length) dflt

/-- Diagnostic of line 487 of the translated file, for element `i`. -/
def elementDiagnostic (dump : Node → String) (fn : String) (line : Nat) (name : String)
    (i : Nat) (node : Node) : String :=
  fn ++ ":" ++ toString line ++ ": "
    ++ "Error in the extraction of the element #" ++ toString i ++ ". Type of the sequence: "
    ++ name ++ "' but the node is not a sequence." ++ endl ++ nodeText dump node

/-- Diagnostic "Tried to extract a ' T' but the node is not a sequence." -/
def notSequenceDiagnostic (dump : Node → String) (fn : String) (line : Nat) (name : String)
    (node : Node) : String :=
  fn ++ ":" ++ toString line ++ ": "
    ++ "Tried to extract a ' " ++ name ++ "' but the node is not a sequence." ++ endl
    ++ nodeText dump node

/-- State of the loop of `get_sequence` into `std::vector<T>` when it is left:
`raised` tells whether control left through an exception (then the statement
`ok = true` after the loop is skipped and `CATCH` only writes to `std::cerr`). -/
structure LoopExit (T : Type) where
  raised : Bool
  ok : Bool
  ret : List T
  what : String

/-- The loop `for (i = 0; i < node.size(); i++)` of `get_sequence` into
`std::vector<T>` (lines 469-497), from index `i` on, `rest` being the
children `node[i]`, `node[i+1]`, ... still to visit. -/
def get_sequence_vector_loop {T : Type} (dump : Node → String) (E : ElemDecoder T) (node : Node) :
    List Node → Nat → Bool → List T → String → LoopExit T
  | [], _, ok, ret, what => ⟨false, ok, ret, what⟩
  | c :: rest, i, ok, ret, what =>
    let v := E.dflt
    let r :=
      if c.IsScalar then E.get_scalar c v
      else if c.IsSequence then E.get_sequence c v
      else if c.IsMap then E.get_map c v
      else Decoded.returned ok v
    match r with
    | .raised _ => ⟨true, ok, ret, what⟩
    | .returned ok1 v1 =>
      if !ok1 then
        ⟨false, ok1, ret,
          what ++ elementDiagnostic dump "get_sequence" 487 E.vector_pretty_name i node⟩
      else
        get_sequence_vector_loop dump E node rest (i + 1) ok1 (ret ++ [v1]) what

/-- The overload `get_sequence(const YAML::Node&, std::vector<T>&, std::stringstream&)`
(lines 448-503). Result: returned flag, `ret`, `what`. -/
def get_sequence_vector {T : Type} (dump : Node → String) (E : ElemDecoder T)
    (node : Node) (ret : List T) (what : String) : Bool × List T × String :=
  let ok := false
  if !node.IsSequence then
    (ok, ret, what ++ notSequenceDiagnostic dump "get_sequence" 455 E.pretty_name node)
  else
    let ret := ([] : List T)
    let ret := vector_resize ret node.size E.dflt
    let e := get_sequence_vector_loop dump E node node.children 0 ok ret what
    if e.raised then (e.ok, e.ret, e.what)
    else (true, e.ret, e.what)

/-- The overload `get_sequence(const YAML::Node&, std::vector<std::vector<T>>&,
std::stringstream&)` (lines 505-553), its loop from index `i` on. The inner
call is the overload for `std::vector<T>`, which returns without throwing, so
the `CATCH` of this overload has nothing to catch. -/
def get_sequence_vector_vector_loop {T : Type} (dump : Node → String) (E : ElemDecoder T)
    (node : Node) : List Node → Nat → Bool → List (List T) → String → Bool × List (List T) × String
  | [], _, ok, ret, what => (ok, ret, what)
  | c :: rest, i, _, ret, what =>
    let what :=
      if !c.IsSequence then
        what ++ notSequenceDiagnostic dump "get_sequence" 528 E.pretty_name node
      else what
    let v := ([] : List T)
    let r := get_sequence_vector dump E c v what
    let ok := r.1
    let v := r.2.1
    let what := r.2.2
    if !ok then
      (ok, ret, what ++ elementDiagnostic dump "get_sequence" 539 E.vector_pretty_name i node)
    else
      get_sequence_vector_vector_loop dump E node rest (i + 1) ok (ret ++ [v]) what

/-- The overload `get_sequence(const YAML::Node&, std::vector<std::vector<T>>&,
std::stringstream&)` (lines 505-553). -/
def get_sequence_vector_vector {T : Type} (dump : Node → String) (E : ElemDecoder T)
    (node : Node) (ret : List (List T)) (what : String) : Bool × List (List T) × String :=
  let ok := false
  if !node.IsSequence then
    (ok, ret, what ++ notSequenceDiagnostic dump "get_sequence" 512 E.pretty_name node)
  else
    let ret := vector_resize ret node.size []
    get_sequence_vector_vector_loop dump E node node.children 0 ok ret what

/-- Diagnostic "Tried to extract a ' T' ?error in size?". -/
def sizeDiagnostic (dump : Node → String) (fn : String) (line : Nat) (name : String)
    (node : Node) : String :=
  fn ++ ":" ++ toString line ++ ": "
    ++ "Tried to extract a ' " ++ name ++ "' ?error in size?" ++ endl ++ nodeText dump node

/-- The call `std::copy_n(tmp.begin(), N, ret.begin())` into a `std::array<T,N>`:
`none` when it would read past the end of `tmp` (undefined behaviour). -/
def copy_n {T : Type} (tmp : List T) (N : Nat) (ret : List T) : Option (List T) :=
  if N ≤ tmp.length then some (tmp.take N ++ ret.drop N) else none

/-- The overload `get_sequence(const YAML::Node&, std::array<T,N>&,
std::stringstream&)` (lines 555-581); `ret` is a list of length `N`. The
result is `none` when `copy_n` has undefined behaviour. -/
def get_sequence_array {T : Type} (dump : Node → String) (E : ElemDecoder T) (N : Nat)
    (node : Node) (ret : List T) (what : String) : Option (Bool × List T × String) :=
  let tmp := ([] : List T)
  let r := get_sequence_vector dump E node tmp what
  let ok := r.1
  let tmp := r.2.1
  let what := r.2.2
  if !ok || tmp.length == N then
    some (ok, ret, what ++ sizeDiagnostic dump "get_sequence" 565 E.pretty_name node)
  else
    match copy_n tmp N ret with
    | none => none
    | some ret => some (true, ret, what)

/-! ## Linear-algebra targets -/

/-- The value `Eigen::Dynamic`. -/
def Dynamic : Int := -1

/-- An `Eigen::MatrixBase<Derived>` object: the two compile-time dimensions of
`Derived` (`Dynamic` when the dimension is chosen at run time), the current
numbers of rows and columns, and the coefficients. -/
structure Matrix (R : Type) where
  RowsAtCompileTime : Int
  ColsAtCompileTime : Int
  rows : Nat
  cols : Nat
  coeff : Nat → Nat → R

namespace utils

/-- Modelled from the spec: `utils::resize(matrix, rows, cols)` of
`cnr_param/utils/eigen.hpp`, which is not among the translated sources. The
spec has it resize/allocate the target to `rows x cols` and fail when a fixed
compile-time dimension conflicts with the requested one: a dimension that is
`Dynamic` takes the requested size, a fixed one stays, and the flag tells
whether the target now has the requested shape. -/
def resize {R : Type} (m : Matrix R) (rows cols : Nat) : Bool × Matrix R :=
  let r := if m.RowsAtCompileTime = Dynamic then rows else m.rows
  let c := if m.ColsAtCompileTime = Dynamic then cols else m.cols
  (r == rows && c == cols,
    Matrix.mk m.RowsAtCompileTime m.ColsAtCompileTime r c m.coeff)

end utils

/-- The assignment `_ret(i, j) = x`. -/
def Matrix.set {R : Type} (m : Matrix R) (i j : Nat) (x : R) : Matrix R :=
  Matrix.mk m.RowsAtCompileTime m.ColsAtCompileTime m.rows m.cols
    (fun a b => if a = i ∧ b = j then x else m.coeff a b)

/-- The assignment `_ret(i) = x` of a vector (one row or one column). -/
def Matrix.setLinear {R : Type} (m : Matrix R) (i : Nat) (x : R) : Matrix R :=
  if m.rows = 1 then m.set 0 i x else m.set i 0 x

/-- The loop `for (i = 0; i < dim; i++) _ret(i) = vv.at(i);` over the indices
still to visit; the second component is the message of the `std::out_of_range`
thrown by `at`, if any. -/
def eigen_fill_vector {R : Type} (vv : List R) : List Nat → Matrix R → Matrix R × Option String
  | [], m => (m, none)
  | i :: rest, m =>
    match vv.get? i with
    | none => (m, some "vector::_M_range_check")
    | some x => eigen_fill_vector vv rest (m.setLinear i x)

/-- The loops `for i < rows, for j < cols: _ret(i, j) = vv.at(i).at(j);` over
the index pairs still to visit, in row-major order. -/
def eigen_fill_matrix {R : Type} (vv : List (List R)) :
    List (Nat × Nat) → Matrix R → Matrix R × Option String
  | [], m => (m, none)
  | (i, j) :: rest, m =>
    match (vv.get? i).bind (fun row => row.get? j) with
    | none => (m, some "vector::_M_range_check")
    | some x => eigen_fill_matrix vv rest (m.set i j x)

/-- The index pairs `(i, j)`, `i < rows`, `j < cols`, in row-major order. -/
def indexPairs (rows cols : Nat) : List (Nat × Nat) :=
  (List.range rows).flatMap (fun i => (List.range cols).map (fun j => (i, j)))

/-- Diagnostic of lines 652 and 682, "It was expected a Vector (RxC) while the
param store a n-vector". -/
def shapeDiagnostic (dump : Node → String) (line : Nat) (expected_rows expected_cols : Int)
    (n : Nat) (node : Node) : String :=
  "get_sequence" ++ ":" ++ toString line ++ ": "
    ++ "It was expected a Vector (" ++ toString expected_rows ++ "x" ++ toString expected_cols
    ++ ") while the param store a " ++ toString n ++ "-vector" ++ endl ++ nodeText dump node

/-- Text appended by the handler `catch (std::exception& e)` of the
linear-algebra overload. -/
def caughtDiagnostic (dump : Node → String) (line : Nat) (node : Node) (msg : String) : String :=
  "get_sequence" ++ ":" ++ toString line ++ ": " ++ "Node: " ++ endl ++ dump node ++ endl
    ++ "What: " ++ endl ++ msg ++ endl

/-- The overload `get_sequence(const YAML::Node&, Eigen::MatrixBase<Derived> const&,
std::stringstream&)` (lines 623-714); `E` decodes the `double` elements.
Result: returned flag, `_ret`, `what`; `none` when `vv.front()` is evaluated
on an empty vector (undefined behaviour). -/
def get_sequence_eigen {R : Type} (dump : Node → String) (E : ElemDecoder R)
    (node : Node) (_ret : Matrix R) (what : String) : Option (Bool × Matrix R × String) :=
  let expected_rows := _ret.RowsAtCompileTime
  let expected_cols := _ret.ColsAtCompileTime
  let should_be_a_vector := (expected_rows == 1 || expected_cols == 1)
  if should_be_a_vector then
    let r := get_sequence_vector dump E node [] what
    let ok := r.1
    let vv := r.2.1
    let what := r.2.2
    if !ok then
      some (false, _ret, what ++ "get_sequence" ++ ":" ++ toString 642 ++ ": "
        ++ "Tried to extract a vector from the " ++ nodeText dump node)
    else
      let dim := vv.length
      let rs := utils.resize _ret (if expected_rows == 1 then 1 else dim)
        (if expected_rows == 1 then dim else 1)
      if !rs.1 then
        some (false, rs.2, what ++ shapeDiagnostic dump 652 expected_rows expected_cols dim node)
      else
        match eigen_fill_vector vv (List.range dim) rs.2 with
        | (m, none) => some (true, m, what)
        | (m, some msg) => some (true, m, what ++ caughtDiagnostic dump 697 node msg)
  else
    let r := get_sequence_vector_vector dump E node [] what
    let ok := r.1
    let vv := r.2.1
    let what := r.2.2
    if !ok then
      some (false, _ret, what)
    else
      match vv with
      | [] => none
      | front :: _ =>
        let rows := vv.length
        let cols := front.length
        let rs := utils.resize _ret rows cols
        if !rs.1 then
          some (false, rs.2, what ++ shapeDiagnostic dump 682 expected_rows expected_cols rows node)
        else
          match eigen_fill_matrix vv (indexPairs rows cols) rs.2 with
          | (m, none) => some (true, m, what)
          | (m, some msg) => some (true, m, what ++ caughtDiagnostic dump 697 node msg)

/-! ## Scalars, maps and the dispatch on the kind of a node -/

/-- What `_get_scalar<T>` needs to know about a primitive type `T`: the name
printed by `boost::typeindex` and the conversion `node.as<T>()` of yaml-cpp
(`none` when it throws). -/
structure Convert (T : Type) where
  pretty_name : String
  as : Node → Option T

/-- The function `_get_scalar<T>` (lines 370-394). When `node.as<T>()` throws,
`CATCH` writes to `std::cerr` only: `what` is left as it was. -/
def _get_scalar {T : Type} (dump : Node → String) (C : Convert T)
    (node : Node) (ret : T) (what : String) : Bool × T × String :=
  let ok := false
  if !node.IsScalar then
    (ok, ret, what ++ "_get_scalar" ++ ":" ++ toString 377 ++ ": "
      ++ "Tried to extract a ' " ++ C.pretty_name ++ "' but the node is not a scalar." ++ endl
      ++ nodeText dump node)
  else
    match C.as node with
    | some v => (true, v, what)
    | none => (ok, ret, what)

/-- The four specialisations of `get_scalar` for `double`, `int`, `bool` and
`std::string` (lines 406-428): each one is `_get_scalar<T>`. -/
def get_scalar {T : Type} (dump : Node → String) (C : Convert T)
    (node : Node) (ret : T) (what : String) : Bool × T × String :=
  _get_scalar dump C node ret what

/-- The primary template `get_scalar<T>` (lines 396-404). -/
def get_scalar_generic {T : Type} (name : String)
    (_node : Node) (ret : T) (what : String) : Bool × T × String :=
  (false, ret, what ++ "The type ' " ++ name
    ++ "' is not supported. You must specilized your own 'get_scalar' template function")

/-- The primary template `get_sequence<T>` (lines 437-446). -/
def get_sequence_generic {T : Type} (name : String)
    (_node : Node) (ret : T) (what : String) : Bool × T × String :=
  (false, ret, what ++ "The type ' " ++ name
    ++ "' is not supported. You must specilized your own 'get_sequence' template function")

/-- The primary template `get_map<T>` (lines 717-727). -/
def get_map {T : Type} (dump : Node → String) (name : String)
    (node : Node) (ret : T) (what : String) : Bool × T × String :=
  (false, ret, what ++ "The type ' " ++ name
    ++ "' is not supported. You must specilized your own 'get_map' template function" ++ endl
    ++ "' Node: " ++ endl ++ dump node ++ endl)

/-- The functions that `get<T>(const YAML::Node&)` selects at compile time for
the target type `T`: the value of a declared `T ret;`, the name printed for
`T`, and the three-argument `get_scalar`, `get_sequence<T>` and `get_map<T>`.
Line 309 calls `get_scalar(node, ret, what)` and lets `T` be deduced; lines 313
and 317 name `T` explicitly, so they reach the primary template
`get_sequence<T>` / `get_map<T>` or an explicit specialisation of it for `T`
written elsewhere, never one of the overloads of `get_sequence` for
`std::vector`, `std::array` or Eigen targets. -/
structure Decoder (T : Type) where
  dflt : T
  pretty_name : String
  get_scalar : Node → T → String → Bool × T × String
  get_sequence : Node → T → String → Bool × T × String
  get_map : Node → T → String → Bool × T × String

/-- The function `T get(const YAML::Node&)` (lines 301-333): `Except.error`
carries the message of the `std::runtime_error` it throws. -/
def get_node {T : Type} (dump : Node → String) (D : Decoder T) (node : Node) : Except String T :=
  let ret := D.dflt
  let ok := false
  let what := ""
  let r :=
    if node.IsScalar then D.get_scalar node ret what
    else if node.IsSequence then D.get_sequence node ret what
    else if node.IsMap then D.get_map node ret what
    else
      (ok, ret, what ++ "get" ++ ":" ++ toString 321 ++ ": " ++ "Tried to extract a ' "
        ++ D.pretty_name ++ "' but the type node is undefined." ++ endl ++ nodeText dump node)
  if !r.1 then Except.error r.2.2
  else Except.ok r.2.1

/-- The decoder set of a primitive type (`double`, `int`, `bool`,
`std::string`): the specialised `get_scalar`, and the primary templates for
sequences and maps. -/
def primitiveDecoder {T : Type} (dump : Node → String) (C : Convert T) (dflt : T) : Decoder T where
  dflt := dflt
  pretty_name := C.pretty_name
  get_scalar := get_scalar dump C
  get_sequence := get_sequence_generic C.pretty_name
  get_map := get_map dump C.pretty_name

/-- The decoder set that `get<std::vector<T>>(node)` selects: the three
primary templates. The call `get_sequence<std::vector<T>>(node, ret, what)` of
line 313 fixes the template argument, and with it the overload for
`std::vector<T>` (lines 448-503) would need a `std::vector<std::vector<T>>&`:
only the primary template (lines 437-446) is viable. -/
def vectorDecoder {T : Type} (dump : Node → String) (E : ElemDecoder T) : Decoder (List T) where
  dflt := []
  pretty_name := E.vector_pretty_name
  get_scalar := get_scalar_generic E.vector_pretty_name
  get_sequence := get_sequence_generic E.vector_pretty_name
  get_map := get_map dump E.vector_pretty_name

/-! ## The document loader and the accessors by key -/

/-- The environment of a lookup: the value of `CNR_PARAM_ROOT_DIRECTORY`
(`std::getenv`), the path operations of `fs`, `utils::checkfilepath` (flag and
error message), the document obtained by mapping a file and `YAML::Load`,
`utils::tokenize`, and the subscript `config[key]` of yaml-cpp (an undefined
node when the key is absent). -/
structure Loader where
  getenv : Option String
  path : String → String → String
  checkfilepath : String → Bool × String
  absolute : String → String
  Load : String → Node
  tokenize : String → String → List String
  index : Node → String → Node

/-- The loop `while (_key.back() == '/') _key.pop_back();`. It stops on the
empty string, where `back()` is undefined in C++. -/
def strip_slashes (key : String) : String :=
  String.mk (key.data.reverse.dropWhile (fun c => c == '/')).reverse

/-- The expression `(what.size() ? (what + "\n") : std::string(""))`. -/
def lineBreak (what : String) : String :=
  if what.length != 0 then what ++ "\n" else ""

/-- The function `absolutepath` (lines 67-92). Result: flag, `ap`, `what`. -/
def absolutepath (L : Loader) (key : String) (ap : String) (what : String) :
    Bool × String × String :=
  match L.getenv with
  | none =>
    (false, ap, lineBreak what ++ "The env variable CNR_PARAM_ROOT_DIRECTORY is not set!")
  | some env_p =>
    let _key := strip_slashes key
    let p := L.path env_p (_key ++ ".yaml")
    let c := L.checkfilepath p
    if !c.1 then
      (false, ap, lineBreak what ++ "The param '" ++ key
        ++ "' is not in param server.\n what(): " ++ c.2)
    else
      (true, L.absolute p, what)

/-- The function `has` (lines 94-102). Result: flag, `what`. -/
def has (L : Loader) (key : String) (what : String) : Bool × String :=
  let r := absolutepath L key "" what
  if !r.1 then (false, r.2.2)
  else (true, r.2.2)

/-- The function `recover` (lines 104-132). Result: flag, `node`, `what`.
`tokens.back()` is undefined in C++ for an empty token list; the model takes
the empty string there. -/
def recover (L : Loader) (key : String) (node : Node) (what : String) : Bool × Node × String :=
  let r := absolutepath L key "" what
  if !r.1 then (false, node, r.2.2)
  else
    let config := L.Load r.2.1
    let tokens := L.tokenize key "/"
    let node := L.index config (tokens.getLastD "")
    ((L.index config (tokens.getLastD "")).IsDefined, node, r.2.2)

/-- The overload `get(const std::string&, T&, std::string&)` (lines 152-177).
Result: flag, `ret`, `what`. -/
def get {T : Type} (dump : Node → String) (D : Decoder T) (L : Loader)
    (key : String) (ret : T) (what : String) : Bool × T × String :=
  let h := has L key what
  if !h.1 then (false, ret, h.2)
  else
    let node := Node.null
    let r := recover L key node h.2
    if !r.1 then (false, ret, r.2.2)
    else
      match get_node dump D r.2.1 with
      | Except.ok v => (true, v, r.2.2)
      | Except.error e =>
        (false, ret, "Failed in getting the Node struct from parameter '" ++ key ++ "':\n" ++ e)

/-- The overload `get(const std::string&, T&, std::string&, const T&)` (lines
179-212); `resize` is `utils::resize(ret, default_val)` (flag and the value
left in `ret`), declared outside the translated file. -/
def get_default {T : Type} (dump : Node → String) (D : Decoder T) (resize : T → T → Bool × T)
    (L : Loader) (key : String) (ret : T) (what : String) (default_val : T) : Bool × T × String :=
  let h := has L key what
  if !h.1 then
    let what := lineBreak h.2 ++ "Try to superimpose default value..."
    let rs := resize ret default_val
    if !rs.1 then (false, rs.2, what ++ " Error!")
    else (true, default_val, what ++ " OK!")
  else
    let node := Node.null
    let r := recover L key node h.2
    if !r.1 then (false, ret, r.2.2)
    else
      match get_node dump D r.2.1 with
      | Except.ok v => (true, v, r.2.2)
      | Except.error e =>
        (false, ret, "Failed in getting the Node struct from parameter '" ++ key ++ "':\n" ++ e)

/-! ## Node introspection and the sequence indexer -/

deriving instance DecidableEq for Except

/-- The function `is_sequence(const node_t&)` (lines 225-228). -/
def is_sequence (node : Node) : Bool := node.IsSequence

/-- The function `size(const node_t&)` (lines 230-240): `Except.error` carries
the message of the `std::runtime_error` it throws. -/
def size (node : Node) : Except String Nat :=
  if !is_sequence node then
    Except.error ("size" ++ ":" ++ toString 235 ++ ": " ++ "The node is not a sequence!")
  else
    Except.ok node.size

/-- The subscript `node[key]` of yaml-cpp on a `const` node with a string key
(`Node::operator[] const`): on a Map the value of the first entry stored under
the key, and an undefined node when there is none; an undefined node on a
Null, Undefined or Sequence node; on a Scalar node it throws
`YAML::BadSubscript` (`Except.error`). -/
def Node.subscript : Node → String → Except String Node
  | .scalar _, _ => Except.error "operator[] call on a scalar"
  | .map entries, key => Except.ok ((entries.lookup key).getD Node.undefined)
  | _, _ => Except.ok Node.undefined

/-- The function `get_leaf` (lines 242-251). Result: flag, `leaf`, `what`;
`Except.error` when the subscript `node[key]` throws, which `get_leaf` has no
handler for. -/
def get_leaf (node : Node) (key : String) (leaf : Node) (what : String) :
    Except String (Bool × Node × String) :=
  match node.subscript key with
  | Except.error e => Except.error e
  | Except.ok child =>
    if child.IsDefined then
      Except.ok (true, child, what)
    else
      Except.ok (false, leaf, "The key is not in the node dictionary")

/-- The child `node[i]` of a node: the `i`-th child of a sequence, an
undefined node when there is none. -/
def Node.child (node : Node) (i : Nat) : Node :=
  (node.children.get? i).getD Node.undefined

/-- Reason set by `at<T>` (line 272) when the element `i` is not a scalar. -/
def notScalarReason (name : String) (i : Nat) : String :=
  "at" ++ ":" ++ toString 272 ++ ": " ++ "Error in the extraction of the element #"
    ++ toString i ++ ". Type of the sequence: " ++ name
    ++ "' but the element is not a scalar type."

/-- The primary template `at<T>` (lines 253-277). The call
`get_scalar<T>(node[i], element)` is the two-argument element decoder of `E`;
when it throws, so does `at` (`Except.error`). Result: flag, `element`,
`what`. -/
def at_ {T : Type} (E : ElemDecoder T) (node : Node) (i : Nat) (element : T) (what : String) :
    Except String (Bool × T × String) :=
  if !is_sequence node then
    Except.ok (false, element, "The node is not a sequence")
  else if i ≥ node.size then
    Except.ok (false, element, "The index is out the boundaries")
  else if (node.child i).IsScalar then
    match E.get_scalar (node.child i) element with
    | .returned ok v => Except.ok (ok, v, what)
    | .raised msg => Except.error msg
  else
    Except.ok (false, element, notScalarReason E.pretty_name i)

/-- The full specialisation `at<node_t>` (lines 279-296). Result: flag,
`element`, `what`. -/
def at_node (node : Node) (i : Nat) (element : Node) (what : String) : Bool × Node × String :=
  if !is_sequence node then
    (false, element, "It is not a sequence")
  else if i ≥ node.size then
    (false, element, "Index out of boundaries")
  else
    (true, node.child i, what)

/-- The full specialisation `get<YAML::Node>(const YAML::Node&)` (lines
335-340): a copy of the node, whatever its kind. -/
def get_node_yaml (node : Node) : Except String Node :=
  let ret := node
  Except.ok ret

/-! ## Sequences into `std::array<std::array<T,M>,N>` -/

/-- The two ways in which the array overloads can leave defined behaviour. -/
inductive Undefined where
  | front_of_empty_vector
  | copy_n_past_the_end
  deriving DecidableEq

/-- The loop `for (i = 0; i < N; i++) std::copy_n(tmp.at(i).begin(), M,
ret.at(i).begin());` over the indices still to visit, on the callee's copy
`ret` of the array. It runs only when `tmp.size() == N`, so `tmp.at(i)` is in
range; `copy_n` is undefined when row `i` holds fewer than `M` elements. -/
def copy_rows {T : Type} (tmp : List (List T)) (M : Nat) :
    List Nat → List (List T) → Except Undefined (List (List T))
  | [], ret => Except.ok ret
  | i :: rest, ret =>
    match copy_n (tmp.getD i []) M (ret.getD i []) with
    | none => Except.error Undefined.copy_n_past_the_end
    | some row => copy_rows tmp M rest (ret.set i row)

/-- The overload `get_sequence(const node_t&, std::array<std::array<T,M>,N>,
std::stringstream&)` (lines 583-612). The array is passed by value: the loop
fills the callee's copy, and the second component of the result, the array of
the caller after the call, is the array it held before. The conditions of
line 591 are evaluated from left to right, `tmp.front()` last. -/
def get_sequence_array_array {T : Type} (dump : Node → String) (E : ElemDecoder T) (N M : Nat)
    (node : Node) (ret : List (List T)) (what : String) :
    Except Undefined (Bool × List (List T) × String) :=
  let tmp := ([] : List (List T))
  let r := get_sequence_vector_vector dump E node tmp what
  let ok := r.1
  let tmp := r.2.1
  let what := r.2.2
  if !ok || tmp.length != N then
    Except.ok (ok, ret, what ++ sizeDiagnostic dump "get_sequence" 593 E.pretty_name node)
  else
    match tmp with
    | [] => Except.error Undefined.front_of_empty_vector
    | front :: _ =>
      if front.length != M then
        Except.ok (ok, ret, what ++ sizeDiagnostic dump "get_sequence" 593 E.pretty_name node)
      else
        match copy_rows tmp M (List.range N) ret with
        | Except.error u => Except.error u
        | Except.ok _ => Except.ok (true, ret, what)

/-! ## Reasons -/

/-- The reason `after` has the reason `before` as its beginning. -/
def keeps_reason (before after : String) : Prop := before.data <+: after.data

instance (before after : String) : Decidable (keeps_reason before after) := by
  unfold keeps_reason; infer_instance

/-! ## The decoder selected for a child -/

/-- The call that the loop of `get_sequence` into `std::vector<T>` makes for a
child (lines 472-483), on a fresh `v = T()`: `get_scalar`, `get_sequence` or
`get_map` according to the kind of the child, and no call at all (`none`) for
a child of any other kind. -/
def selected {T : Type} (E : ElemDecoder T) (c : Node) : Option (Decoded T) :=
  if c.IsScalar then some (E.get_scalar c E.dflt)
  else if c.IsSequence then some (E.get_sequence c E.dflt)
  else if c.IsMap then some (E.get_map c E.dflt)
  else none

/-- The value that the selected call leaves in `v`; `T()` when there is no
call or when it throws. -/
def decodedValue {T : Type} (E : ElemDecoder T) (c : Node) : T :=
  match selected E c with
  | some (Decoded.returned _ v) => v
  | _ => E.dflt

/-- What `get_sequence` into `std::vector<T>` returns once its loop is left in
the state `e` (lines 498-502). -/
def afterLoop {T : Type} (e : LoopExit T) : Bool × List T × String :=
  if e.raised then (e.ok, e.ret, e.what)
  else (true, e.ret, e.what)

/-! ## Sample instances -/

/-- A rendering of nodes for the examples. -/
def sampleDump : Node → String := fun _ => "<node>"

/-- The conversion `node.as<int>()` on the scalars "1", "2", "3" and "42"; it
throws on every other node. -/
def intConvert : Convert Int where
  pretty_name := "int"
  as := fun n =>
    match n with
    | .scalar "1" => some 1
    | .scalar "2" => some 2
    | .scalar "3" => some 3
    | .scalar "42" => some 42
    | _ => none

/-- An element decoder for `int`: a scalar is decoded with `intConvert`, and
there is no sequence or map decoder for `int`. -/
def intElem : ElemDecoder Int where
  dflt := 0
  pretty_name := "int"
  vector_pretty_name := "std::vector<int>"
  get_scalar := fun n v =>
    match intConvert.as n with
    | some x => .returned true x
    | none => .returned false v
  get_sequence := fun _ v => .returned false v
  get_map := fun _ v => .returned false v

/-- An element decoder for `double` on values that are exactly representable:
the scalars "1", "2", "3" and "42". -/
def doubleElem : ElemDecoder Rat where
  dflt := 0
  pretty_name := "double"
  vector_pretty_name := "std::vector<double>"
  get_scalar := fun n v =>
    match intConvert.as n with
    | some x => .returned true x
    | none => .returned false v
  get_sequence := fun _ v => .returned false v
  get_map := fun _ v => .returned false v

/-- The value decoded from a scalar child by the element decoder. -/
def scalarValue {T : Type} (E : ElemDecoder T) (c : Node) : T :=
  match E.get_scalar c E.dflt with
  | .returned _ v => v
  | .raised _ => E.dflt

/-- Splitting of a character list at a separator; `cur` holds, reversed, the
characters of the token being read. -/
def splitChars (sep : Char) : List Char → List Char → List (List Char)
  | [], cur => [cur.reverse]
  | c :: cs, cur =>
    if c == sep then cur.reverse :: splitChars sep cs []
    else splitChars sep cs (c :: cur)

/-- A tokenizer for the examples: the segments of a key between slashes. -/
def sampleTokenize (key : String) (_delim : String) : List String :=
  (splitChars '/' key.data []).map String.mk

/-- The subscript `config[key]` on a map document: the value stored under the
key, or an undefined node. -/
def sampleIndex : Node → String → Node
  | .map entries, key =>
    match entries.lookup key with
    | some n => n
    | none => Node.undefined
  | _, _ => Node.undefined

/-- A parameter server for the examples: the root directory is `/params`,
the only file is `/params/a/b.yaml`, and it holds the document `doc`. -/
def sampleLoader (doc : Node) : Loader where
  getenv := some "/params"
  path := fun root name => root ++ "/" ++ name
  checkfilepath := fun p =>
    if p == "/params/a/b.yaml" then (true, "") else (false, "the file does not exist")
  absolute := fun p => p
  Load := fun _ => doc
  tokenize := sampleTokenize
  index := sampleIndex

/-- The decoder set of `int`. -/
def intDecoder : Decoder Int := primitiveDecoder sampleDump intConvert 0

/-- A `utils::resize(ret, default_val)` that has nothing to adapt. -/
def keepShape {T : Type} (ret : T) (_default_val : T) : Bool × T := (true, ret)

/-- A `utils::resize(ret, default_val)` that cannot adapt the shape. -/
def fixedShape {T : Type} (ret : T) (_default_val : T) : Bool × T := (false, ret)

/-- An empty `Eigen::MatrixXd` (both dimensions chosen at run time). -/
def dynamicMatrix : Matrix Rat := Matrix.mk Dynamic Dynamic 0 0 (fun _ _ => 0)

/-- An `Eigen::Matrix<double,2,2>` filled with zeros. -/
def fixedMatrix22 : Matrix Rat := Matrix.mk 2 2 2 2 (fun _ _ => 0)

/-- The flag and the shape of the target after a call of the linear-algebra
overload. -/
def flagAndShape {R : Type} (r : Option (Bool × Matrix R × String)) : Option (Bool × Nat × Nat) :=
  r.map (fun x => (x.1, x.2.1.rows, x.2.1.cols))

/-- The nested sequence `[[1, 2], [3, 1]]`: two rows of two numbers. -/
def rows22 : Node :=
  Node.sequence [Node.sequence [Node.scalar "1", Node.scalar "2"],
    Node.sequence [Node.scalar "3", Node.scalar "1"]]

/-- The nested sequence `[[1, 2], [3]]`, whose rows have unequal lengths. -/
def rowsUnequal : Node :=
  Node.sequence [Node.sequence [Node.scalar "1", Node.scalar "2"],
    Node.sequence [Node.scalar "3"]]

/-- The document `{x: 3}`: it has no entry for the key `b`. -/
def docWithoutB : Node := Node.map [("x", Node.scalar "3")]

/-- The document `{b: 3}`. -/
def docScalarB : Node := Node.map [("b", Node.scalar "3")]

/-- The document `{b: hello}`, whose scalar does not convert to `int`. -/
def docTextB : Node := Node.map [("b", Node.scalar "hello")]

/-- The document `{b: [1, x, 3]}`, whose element 1 does not convert to `int`. -/
def docBadElementB : Node :=
  Node.map [("b", Node.sequence [Node.scalar "1", Node.scalar "x", Node.scalar "3"])]

/-- The nested sequence `[[x]]`: one row, whose only element does not convert
to `int`. -/
def rowsBadElement : Node := Node.sequence [Node.sequence [Node.scalar "x"]]

/-- The nested sequence `[[1], [2], [3]]`: three rows of one number. -/
def rows31 : Node :=
  Node.sequence [Node.sequence [Node.scalar "1"], Node.sequence [Node.scalar "2"],
    Node.sequence [Node.scalar "3"]]

/-! ## Sequences into `std::vector<T>` -/

theorem vector_resize_nil {T : Type} (n : Nat) (d : T) :
    vector_resize ([] : List T) n d = List.replicate n d := by
  simp [vector_resize]

/-- The loop over children that are all decodable scalars appends their
values, in order, to what `ret` already holds, and writes no diagnostic. -/
theorem get_sequence_vector_loop_scalars {T : Type} (dump : Node → String) (E : ElemDecoder T)
    (node : Node) (rest : List Node)
    (h : ∀ c ∈ rest, c.IsScalar = true ∧ ∃ v, E.get_scalar c E.dflt = Decoded.returned true v) :
    ∀ (i : Nat) (ok : Bool) (ret : List T) (what : String),
      (get_sequence_vector_loop dump E node rest i ok ret what).raised = false
      ∧ (get_sequence_vector_loop dump E node rest i ok ret what).ret
          = ret ++ rest.map (scalarValue E)
      ∧ (get_sequence_vector_loop dump E node rest i ok ret what).what = what := by
  induction rest with
  | nil => intro i ok ret what; simp [get_sequence_vector_loop]
  | cons c rest ih =>
    intro i ok ret what
    obtain ⟨hs, v, hv⟩ := h c (List.mem_cons_self c rest)
    have hrest : ∀ c ∈ rest, c.IsScalar = true
        ∧ ∃ v, E.get_scalar c E.dflt = Decoded.returned true v :=
      fun c hc => h c (List.mem_cons_of_mem _ hc)
    have hval : scalarValue E c = v := by simp [scalarValue, hv]
    simp only [get_sequence_vector_loop, hs, hv, if_true, Bool.not_true, Bool.false_eq_true,
      if_false, List.map_cons, hval]
    obtain ⟨h1, h2, h3⟩ := ih hrest (i + 1) true (ret ++ [v]) what
    refine ⟨h1, ?_, h3⟩
    rw [h2]; simp

/-- What the code does on a sequence of `N` decodable scalars: it returns
true, and `ret` holds `N` copies of `T()` followed by the `N` decoded values. -/
theorem get_sequence_vector_scalars {T : Type} (dump : Node → String) (E : ElemDecoder T)
    (children : List Node) (ret : List T) (what : String)
    (h : ∀ c ∈ children,
      c.IsScalar = true ∧ ∃ v, E.get_scalar c E.dflt = Decoded.returned true v) :
    get_sequence_vector dump E (Node.sequence children) ret what
      = (true, List.replicate children.length E.dflt ++ children.map (scalarValue E), what) := by
  obtain ⟨h1, h2, h3⟩ := get_sequence_vector_loop_scalars dump E (Node.sequence children)
    children h 0 false (List.replicate children.length E.dflt) what
  simp [get_sequence_vector, Node.IsSequence, Node.size, Node.children, vector_resize_nil,
    h1, h2, h3]

/-- C1 (evaluation of the code at the failing input): decoding the sequence
`[1, 2]` of two decodable scalars into `std::vector<int>` returns true with a
vector of length 4, `[0, 0, 1, 2]`: `ret.resize(node.size())` puts two
value-initialised elements in front of the two decoded ones, so the length is
not 2 and element 0 is not the decoding of child 0. -/
theorem C1_get_sequence_vector_length_doubled :
    get_sequence_vector sampleDump intElem
        (Node.sequence [Node.scalar "1", Node.scalar "2"]) [] ""
      = (true, [0, 0, 1, 2], "")
    ∧ (get_sequence_vector sampleDump intElem
        (Node.sequence [Node.scalar "1", Node.scalar "2"]) [] "").2.1.length ≠ 2 := by
  decide

/-- C10 (evaluation of the code at the failing input): in the sequence
`[1, x, 3]` the child at index 1 cannot be decoded as `int`; the code writes
the diagnostic for element #1, leaves the loop, and then executes `ok = true`:
it returns true, and `ret` holds the three value-initialised elements and the
decoded child 0. -/
theorem C10_get_sequence_vector_element_failure_returns_true :
    get_sequence_vector sampleDump intElem
        (Node.sequence [Node.scalar "1", Node.scalar "x", Node.scalar "3"]) [] ""
      = (true, [0, 0, 0, 1],
          elementDiagnostic sampleDump "get_sequence" 487 "std::vector<int>" 1
            (Node.sequence [Node.scalar "1", Node.scalar "x", Node.scalar "3"])) := by
  decide

/-- C7 (evaluation of the code at failing inputs), for `std::array<int,2>`
holding `[7, 7]` before the call. On the sequence `[1, 2, 3]` of length 3 the
code returns true and writes no diagnostic; on the sequence `[1, 2]` of length
2 it returns true with the array `[0, 0]`, not `[1, 2]`; on the sequence `[1]`,
whose intermediate vector has length 2, it writes the size diagnostic, leaves
the array as it was and still returns true. -/
theorem C7_get_sequence_array_length_test :
    get_sequence_array sampleDump intElem 2
        (Node.sequence [Node.scalar "1", Node.scalar "2", Node.scalar "3"]) [7, 7] ""
      = some (true, [0, 0], "")
    ∧ get_sequence_array sampleDump intElem 2
        (Node.sequence [Node.scalar "1", Node.scalar "2"]) [7, 7] ""
      = some (true, [0, 0], "")
    ∧ get_sequence_array sampleDump intElem 2 (Node.sequence [Node.scalar "1"]) [7, 7] ""
      = some (true, [7, 7],
          sizeDiagnostic sampleDump "get_sequence" 565 "int" (Node.sequence [Node.scalar "1"])) := by
  decide

/-! ## Accessors by key -/

theorem has_true_what (L : Loader) (key what : String) (h : (has L key what).1 = true) :
    (has L key what).2 = what := by
  unfold has absolutepath at *
  cases hg : L.getenv with
  | none => simp [hg] at h
  | some env_p =>
    simp only [hg] at h ⊢
    by_cases hc : (L.checkfilepath (L.path env_p (strip_slashes key ++ ".yaml"))).1 = true
    · simp [hc]
    · simp [hc] at h

theorem recover_what_of_has (L : Loader) (key what : String) (node : Node)
    (h : (has L key what).1 = true) : (recover L key node what).2.2 = what := by
  unfold has absolutepath at h
  unfold recover absolutepath
  cases hg : L.getenv with
  | none => simp [hg] at h
  | some env_p =>
    simp only [hg] at h ⊢
    by_cases hc : (L.checkfilepath (L.path env_p (strip_slashes key ++ ".yaml"))).1 = true
    · simp [hc]
    · simp [hc] at h

/-- C2: for a key that `has` reports absent, the overload without default
returns false (leaving `ret`, with the reason left by `has`); the overload
with a default returns true with `ret` equal to the default and a reason
ending in " OK!" when `utils::resize(ret, default_val)` succeeds, and returns
false with a reason ending in " Error!" and `ret` as `resize` left it (the
default is not assigned) when that resize fails. -/
theorem C2_absent_key_default_overlay {T : Type} (dump : Node → String) (D : Decoder T)
    (resize : T → T → Bool × T) (L : Loader) (key : String) (ret : T) (what : String)
    (default_val : T) (habsent : (has L key what).1 = false) :
    get dump D L key ret what = (false, ret, (has L key what).2)
    ∧ ((resize ret default_val).1 = true →
        (get_default dump D resize L key ret what default_val).1 = true
        ∧ (get_default dump D resize L key ret what default_val).2.1 = default_val
        ∧ ∃ pre, (get_default dump D resize L key ret what default_val).2.2 = pre ++ " OK!")
    ∧ ((resize ret default_val).1 = false →
        (get_default dump D resize L key ret what default_val).1 = false
        ∧ (get_default dump D resize L key ret what default_val).2.1 = (resize ret default_val).2
        ∧ ∃ pre,
          (get_default dump D resize L key ret what default_val).2.2 = pre ++ " Error!") := by
  refine ⟨?_, ?_, ?_⟩
  · simp [get, habsent]
  · intro hr
    simp only [get_default, habsent, hr, Bool.not_false, Bool.not_true, if_true,
      Bool.false_eq_true, if_false, true_and]
    exact ⟨_, rfl⟩
  · intro hr
    simp only [get_default, habsent, hr, Bool.not_false, if_true, true_and]
    exact ⟨_, rfl⟩

/-- C2, at a concrete input: the file of the key `a/c` does not exist, the
value held is 7 and the default is 42. -/
theorem C2_absent_key_default_overlay_witness :
    (has (sampleLoader Node.null) "a/c" "").1 = false
    ∧ get_default sampleDump intDecoder keepShape (sampleLoader Node.null) "a/c" 7 "" 42
        = (true, 42,
            "The param 'a/c' is not in param server.\n what(): the file does not exist"
              ++ "\n" ++ "Try to superimpose default value..." ++ " OK!")
    ∧ get_default sampleDump intDecoder fixedShape (sampleLoader Node.null) "a/c" 7 "" 42
        = (false, 7,
            "The param 'a/c' is not in param server.\n what(): the file does not exist"
              ++ "\n" ++ "Try to superimpose default value..." ++ " Error!")
    ∧ (get sampleDump intDecoder (sampleLoader Node.null) "a/c" 7 "").1 = false := by
  have h := C2_absent_key_default_overlay sampleDump intDecoder keepShape
    (sampleLoader Node.null) "a/c" 7 "" 42 (by decide)
  refine ⟨by decide, by decide, by decide, ?_⟩
  rw [h.1]

/-- C3 (counterexample to the claim as stated): the file `/params/a/b.yaml`
exists, so `has("a/b")` succeeds, but the document `{x: 3}` has no entry `b`,
so `recover` returns false; `get<int>("a/b", ret, what, 42)` with `ret`
holding 7 returns false and leaves 7 in `ret`: it neither returns true nor
stores 42. -/
theorem C3_absent_segment_counterexample :
    (has (sampleLoader docWithoutB) "a/b" "").1 = true
    ∧ (recover (sampleLoader docWithoutB) "a/b" Node.null "").1 = false
    ∧ get_default sampleDump intDecoder keepShape (sampleLoader docWithoutB) "a/b" 7 "" 42
        = (false, 7, "")
    ∧ ¬ ((get_default sampleDump intDecoder keepShape (sampleLoader docWithoutB)
            "a/b" 7 "" 42).1 = true
          ∧ (get_default sampleDump intDecoder keepShape (sampleLoader docWithoutB)
            "a/b" 7 "" 42).2.1 = 42) := by
  decide

/-- C3 (amended): for a key whose backing document exists (`has` succeeds)
but whose final path segment is absent from it (`recover` returns false), the
overload with a default returns false, leaves `ret` as it was (the default is
not stored) and leaves the reason as it was. -/
theorem C3_absent_segment_returns_false {T : Type} (dump : Node → String) (D : Decoder T)
    (resize : T → T → Bool × T) (L : Loader) (key : String) (ret : T) (what : String)
    (default_val : T) (hhas : (has L key what).1 = true)
    (hrec : (recover L key Node.null what).1 = false) :
    get_default dump D resize L key ret what default_val = (false, ret, what) := by
  have hw := has_true_what L key what hhas
  have hr := recover_what_of_has L key what Node.null hhas
  simp [get_default, hhas, hw, hrec, hr]

/-- C3 (amended), at a concrete input: the key `a/b` on the document `{x: 3}`. -/
theorem C3_absent_segment_returns_false_witness :
    (has (sampleLoader docWithoutB) "a/b" "why").1 = true
    ∧ (recover (sampleLoader docWithoutB) "a/b" Node.null "why").1 = false
    ∧ get_default sampleDump intDecoder keepShape (sampleLoader docWithoutB) "a/b" 7 "why" 42
        = (false, 7, "why") :=
  ⟨by decide, by decide,
    C3_absent_segment_returns_false sampleDump intDecoder keepShape (sampleLoader docWithoutB)
      "a/b" 7 "why" 42 (by decide) (by decide)⟩

/-- Every node is a failure for `get<std::vector<T>>(node)`: a sequence
reaches the primary template `get_sequence<T>`, whatever its elements and its
length. -/
theorem get_node_vector_raises {T : Type} (dump : Node → String) (E : ElemDecoder T)
    (node : Node) : ∃ msg, get_node dump (vectorDecoder dump E) node = Except.error msg := by
  cases node <;>
    simp [get_node, vectorDecoder, get_scalar_generic, get_sequence_generic, get_map,
      Node.IsScalar, Node.IsSequence, Node.IsMap]

/-- Every node that is not a scalar, and every scalar whose conversion throws,
is a failure for `get<T>(node)` with a primitive `T`. -/
theorem get_node_primitive_raises {T : Type} (dump : Node → String) (C : Convert T) (dflt : T)
    (node : Node) (h : node.IsScalar = false ∨ C.as node = none) :
    ∃ msg, get_node dump (primitiveDecoder dump C dflt) node = Except.error msg := by
  cases hs : node.IsScalar with
  | false =>
    cases node <;>
      simp_all [get_node, primitiveDecoder, get_sequence_generic, get_map,
        Node.IsScalar, Node.IsSequence, Node.IsMap]
  | true =>
    rcases h with h | h
    · simp [hs] at h
    · simp [get_node, primitiveDecoder, get_scalar, _get_scalar, hs, h]

/-- C4: for a present key (`has` and `recover` both succeed) whose node is
malformed for the target type `T` (`get<T>(node)` throws, with the message
`msg`), `get<T>(key, ret, what, default_val)` returns false and leaves in
`ret` the value it held before the call: the default is not stored. The
reason is the composed failure message. -/
theorem C4_malformed_node_returns_false {T : Type} (dump : Node → String) (D : Decoder T)
    (resize : T → T → Bool × T) (L : Loader) (key : String) (ret : T) (what : String)
    (default_val : T) (msg : String) (hhas : (has L key what).1 = true)
    (hrec : (recover L key Node.null what).1 = true)
    (hmalformed : get_node dump D (recover L key Node.null what).2.1 = Except.error msg) :
    (get_default dump D resize L key ret what default_val).1 = false
    ∧ (get_default dump D resize L key ret what default_val).2.1 = ret
    ∧ (get_default dump D resize L key ret what default_val).2.2
        = "Failed in getting the Node struct from parameter '" ++ key ++ "':\n" ++ msg := by
  have hw := has_true_what L key what hhas
  simp [get_default, hhas, hw, hrec, hmalformed]

/-- C4, at a concrete input: the key `a/b` is present and addresses the
sequence `[1, x, 3]`, whose element 1 cannot be decoded as `int`; it is read
as `std::vector<int>` with `ret` holding `[9]` and the default `[5, 5]`. -/
theorem C4_malformed_node_returns_false_witness :
    (has (sampleLoader docBadElementB) "a/b" "").1 = true
    ∧ (recover (sampleLoader docBadElementB) "a/b" Node.null "").1 = true
    ∧ get_node sampleDump (vectorDecoder sampleDump intElem)
        (recover (sampleLoader docBadElementB) "a/b" Node.null "").2.1
      = Except.error ("The type ' std::vector<int>' is not supported. "
          ++ "You must specilized your own 'get_sequence' template function")
    ∧ ((get_default sampleDump (vectorDecoder sampleDump intElem) keepShape
          (sampleLoader docBadElementB) "a/b" [9] "" [5, 5]).1 = false
      ∧ (get_default sampleDump (vectorDecoder sampleDump intElem) keepShape
          (sampleLoader docBadElementB) "a/b" [9] "" [5, 5]).2.1 = [9]
      ∧ (get_default sampleDump (vectorDecoder sampleDump intElem) keepShape
          (sampleLoader docBadElementB) "a/b" [9] "" [5, 5]).2.2
        = "Failed in getting the Node struct from parameter '" ++ "a/b" ++ "':\n"
          ++ ("The type ' std::vector<int>' is not supported. "
            ++ "You must specilized your own 'get_sequence' template function")) :=
  ⟨by decide, by decide, by decide,
    C4_malformed_node_returns_false sampleDump (vectorDecoder sampleDump intElem) keepShape
      (sampleLoader docBadElementB) "a/b" [9] "" [5, 5]
      ("The type ' std::vector<int>' is not supported. "
        ++ "You must specilized your own 'get_sequence' template function")
      (by decide) (by decide) (by decide)⟩

/-- C5: when `has(key)` succeeds, the overload with a default returns the
same flag, the same `ret` and the same reason as the overload without
default, whatever the default, the initial `ret` and the initial reason. -/
theorem C5_present_key_same_as_no_default {T : Type} (dump : Node → String) (D : Decoder T)
    (resize : T → T → Bool × T) (L : Loader) (key : String) (ret : T) (what : String)
    (default_val : T) (hhas : (has L key what).1 = true) :
    get_default dump D resize L key ret what default_val = get dump D L key ret what := by
  simp [get_default, get, hhas]

/-- C5, at a concrete input: the key `a/b` on the document `{b: hello}`,
whose scalar does not convert to `int`. -/
theorem C5_present_key_same_as_no_default_witness :
    (has (sampleLoader docTextB) "a/b" "why").1 = true
    ∧ get_default sampleDump intDecoder keepShape (sampleLoader docTextB) "a/b" 7 "why" 42
        = get sampleDump intDecoder (sampleLoader docTextB) "a/b" 7 "why" :=
  ⟨by decide,
    C5_present_key_same_as_no_default sampleDump intDecoder keepShape (sampleLoader docTextB)
      "a/b" 7 "why" 42 (by decide)⟩

theorem failure_reason_ne_empty (key msg : String) :
    "Failed in getting the Node struct from parameter '" ++ key ++ "':\n" ++ msg ≠ "" := by
  intro h
  have hl := congrArg String.length h
  simp only [String.length_append] at hl
  have h0 : ("" : String).length = 0 := rfl
  have h1 : ("Failed in getting the Node struct from parameter '" : String).length = 50 := by
    decide
  omega

/-- C6: for a primitive type `T` (`bool`, `int`, `double`, `std::string`: the
types whose `get_scalar` is `_get_scalar<T>`) and a key that resolves to a
scalar node: when the conversion `node.as<T>()` yields `v`, `get<T>(key)`
returns true with `ret = v` (and the reason as it was); when the conversion
throws, `get<T>(key)` returns false, leaves `ret` as it was, and the reason is
not empty. -/
theorem C6_primitive_scalar {T : Type} (dump : Node → String) (C : Convert T) (dflt : T)
    (L : Loader) (key : String) (ret : T) (what : String)
    (hhas : (has L key what).1 = true)
    (hrec : (recover L key Node.null what).1 = true)
    (hscalar : (recover L key Node.null what).2.1.IsScalar = true) :
    (∀ v, C.as (recover L key Node.null what).2.1 = some v →
        get dump (primitiveDecoder dump C dflt) L key ret what = (true, v, what))
    ∧ (C.as (recover L key Node.null what).2.1 = none →
        (get dump (primitiveDecoder dump C dflt) L key ret what).1 = false
        ∧ (get dump (primitiveDecoder dump C dflt) L key ret what).2.1 = ret
        ∧ (get dump (primitiveDecoder dump C dflt) L key ret what).2.2 ≠ "") := by
  have hw := has_true_what L key what hhas
  have hr := recover_what_of_has L key what Node.null hhas
  constructor
  · intro v hv
    simp [get, hhas, hw, hrec, hr, get_node, primitiveDecoder, get_scalar, _get_scalar,
      hscalar, hv]
  · intro hn
    have hg : get dump (primitiveDecoder dump C dflt) L key ret what
        = (false, ret,
            "Failed in getting the Node struct from parameter '" ++ key ++ "':\n" ++ "") := by
      simp [get, hhas, hw, hrec, get_node, primitiveDecoder, get_scalar, _get_scalar,
        hscalar, hn]
    rw [hg]
    exact ⟨rfl, rfl, failure_reason_ne_empty key ""⟩

/-- C6, at concrete inputs: the key `a/b` on the document `{b: 3}`, read as
`int`. -/
theorem C6_primitive_scalar_witness :
    (has (sampleLoader docScalarB) "a/b" "").1 = true
    ∧ (recover (sampleLoader docScalarB) "a/b" Node.null "").1 = true
    ∧ (recover (sampleLoader docScalarB) "a/b" Node.null "").2.1.IsScalar = true
    ∧ get sampleDump (primitiveDecoder sampleDump intConvert 0) (sampleLoader docScalarB)
        "a/b" 7 "" = (true, 3, "")
    ∧ (has (sampleLoader docTextB) "a/b" "").1 = true
    ∧ (recover (sampleLoader docTextB) "a/b" Node.null "").1 = true
    ∧ (recover (sampleLoader docTextB) "a/b" Node.null "").2.1.IsScalar = true
    ∧ intConvert.as (recover (sampleLoader docTextB) "a/b" Node.null "").2.1 = none
    ∧ (get sampleDump (primitiveDecoder sampleDump intConvert 0) (sampleLoader docTextB)
        "a/b" 7 "").1 = false
    ∧ (get sampleDump (primitiveDecoder sampleDump intConvert 0) (sampleLoader docTextB)
        "a/b" 7 "").2.1 = 7
    ∧ (get sampleDump (primitiveDecoder sampleDump intConvert 0) (sampleLoader docTextB)
        "a/b" 7 "").2.2 ≠ "" :=
  ⟨by decide, by decide, by decide,
    (C6_primitive_scalar sampleDump intConvert 0 (sampleLoader docScalarB) "a/b" 7 ""
      (by decide) (by decide) (by decide)).1 3 (by decide),
    by decide, by decide, by decide, by decide,
    (C6_primitive_scalar sampleDump intConvert 0 (sampleLoader docTextB) "a/b" 7 ""
      (by decide) (by decide) (by decide)).2 (by decide)⟩

/-! ## Linear-algebra targets -/

/-- C8 (evaluation of the code at the failing input): the nested sequence
`[[1, 2], [3, 1]]` has 2 rows of 2 numbers. The intermediate nested vector is
`[[], [], [0, 0, 1, 2], [0, 0, 3, 1]]`, so the code takes 4 rows and 0
columns: into a matrix with run-time shape it returns true with a 4 x 0
result, not 2 x 2; into a fixed 2 x 2 matrix, whose shape is the one of the
source, the resize to 4 x 0 fails and it returns false. -/
theorem C8_get_sequence_eigen_matrix_shape :
    (get_sequence_vector_vector sampleDump doubleElem rows22 [] "").2.1
      = [[], [], [0, 0, 1, 2], [0, 0, 3, 1]]
    ∧ flagAndShape (get_sequence_eigen sampleDump doubleElem rows22 dynamicMatrix "")
      = some (true, 4, 0)
    ∧ flagAndShape (get_sequence_eigen sampleDump doubleElem rows22 fixedMatrix22 "")
      = some (false, 2, 2) := by
  decide

/-- C9 (evaluation of the code at the failing input): the rows of
`[[1, 2], [3]]` have unequal lengths; decoding it into a matrix with run-time
shape returns true (with a 4 x 0 result and no diagnostic), not false. -/
theorem C9_get_sequence_eigen_unequal_rows_returns_true :
    (get_sequence_eigen sampleDump doubleElem rowsUnequal dynamicMatrix "").map
        (fun x => (x.1, x.2.1.rows, x.2.1.cols, x.2.2))
      = some (true, 4, 0, "") := by
  decide

/-! ## Node introspection and the sequence indexer -/

theorem notScalarReason_names_index (name : String) (i : Nat) :
    ∃ pre post, notScalarReason name i = pre ++ "element #" ++ toString i ++ post := by
  refine ⟨"at" ++ ":" ++ toString 272 ++ ": " ++ "Error in the extraction of the ",
    ". Type of the sequence: " ++ name ++ "' but the element is not a scalar type.", ?_⟩
  simp only [notScalarReason, String.append_assoc]
  rfl

/-- C11: `at<T>(node, i, element, what)` returns true exactly when the node
is a sequence, `i < node.size()`, the child `i` is a scalar and the scalar
decoder succeeds on it, and then `element` is the decoded child (and the
reason is untouched); it returns false with the reason "The node is not a
sequence" for a non-sequence node, with "The index is out the boundaries" for
`i >= node.size()`, and with a reason that names the element `#i` when the
child `i` is not a scalar. -/
theorem C11_at_scalar {T : Type} (E : ElemDecoder T) (node : Node) (i : Nat) (element : T)
    (what : String) :
    (∀ v w, at_ E node i element what = Except.ok (true, v, w) ↔
        (node.IsSequence = true ∧ i < node.size ∧ (node.child i).IsScalar = true
          ∧ E.get_scalar (node.child i) element = Decoded.returned true v ∧ w = what))
    ∧ (node.IsSequence = false →
        at_ E node i element what = Except.ok (false, element, "The node is not a sequence"))
    ∧ (node.IsSequence = true → node.size ≤ i →
        at_ E node i element what
          = Except.ok (false, element, "The index is out the boundaries"))
    ∧ (node.IsSequence = true → i < node.size → (node.child i).IsScalar = false →
        at_ E node i element what
          = Except.ok (false, element, notScalarReason E.pretty_name i)
        ∧ ∃ pre post,
          notScalarReason E.pretty_name i = pre ++ "element #" ++ toString i ++ post) := by
  refine ⟨?_, ?_, ?_, ?_⟩
  · intro v w
    cases hseq : node.IsSequence with
    | false => simp [at_, is_sequence, hseq]
    | true =>
      by_cases hi : i < node.size
      · have hi2 : ¬ (node.size ≤ i) := Nat.not_le.mpr hi
        cases hsc : (node.child i).IsScalar with
        | false => simp [at_, is_sequence, hseq, hi, hi2, hsc]
        | true =>
          cases hg : E.get_scalar (node.child i) element with
          | raised msg => simp [at_, is_sequence, hseq, hi, hi2, hsc, hg]
          | returned ok v1 =>
            simp only [at_, is_sequence, hseq, hi, hi2, hsc, hg, Bool.not_true,
              Bool.false_eq_true, if_false, if_true, ge_iff_le, Except.ok.injEq, Prod.mk.injEq,
              Decoded.returned.injEq, true_and]
            constructor
            · rintro ⟨h1, h2, h3⟩; exact ⟨⟨h1, h2⟩, h3.symm⟩
            · rintro ⟨⟨h1, h2⟩, h3⟩; exact ⟨h1, h2, h3.symm⟩
      · have hi2 : node.size ≤ i := Nat.le_of_not_lt hi
        simp [at_, is_sequence, hseq, hi, hi2]
  · intro hseq
    simp [at_, is_sequence, hseq]
  · intro hseq hi
    simp [at_, is_sequence, hseq, hi]
  · intro hseq hi hsc
    have hi2 : ¬ (node.size ≤ i) := Nat.not_le.mpr hi
    exact ⟨by simp [at_, is_sequence, hseq, hi2, hsc], notScalarReason_names_index _ _⟩

theorem child_of_sequence (cs : List Node) (i : Nat) (h : i < cs.length) :
    (Node.sequence cs).child i = cs.get ⟨i, h⟩ := by
  simp [Node.child, Node.children, List.getElem?_eq_getElem h]

/-- C12: for a sequence node and `i < node.size()`, the specialisation
`at<node_t>` returns true and sets `element` to the raw child `node[i]`,
whatever its kind (the reason is untouched); for a non-sequence node or
`i >= node.size()` it returns false and leaves `element` as it was. -/
theorem C12_at_node_raw_child (i : Nat) (element : Node) (what : String) :
    (∀ (cs : List Node) (h : i < cs.length),
        at_node (Node.sequence cs) i element what = (true, cs.get ⟨i, h⟩, what))
    ∧ (∀ node : Node, node.IsSequence = false ∨ node.size ≤ i →
        (at_node node i element what).1 = false
        ∧ (at_node node i element what).2.1 = element) := by
  constructor
  · intro cs h
    have h2 : ¬ (cs.length ≤ i) := Nat.not_le.mpr h
    simp [at_node, is_sequence, Node.IsSequence, Node.size, h2, child_of_sequence cs i h]
  · intro node hn
    cases hseq : node.IsSequence with
    | false => simp [at_node, is_sequence, hseq]
    | true =>
      rcases hn with hn | hn
      · simp [hseq] at hn
      · simp [at_node, is_sequence, hseq, hn]

/-- C13: `size(node)` throws exactly when the node is not a sequence; for a
sequence node it returns the number of children. -/
theorem C13_size_throws_iff_not_sequence (node : Node) :
    ((∃ msg, size node = Except.error msg) ↔ node.IsSequence = false)
    ∧ (∀ cs : List Node, size (Node.sequence cs) = Except.ok cs.length) := by
  constructor
  · cases hseq : node.IsSequence with
    | false => simp [size, is_sequence, hseq]
    | true => simp [size, is_sequence, hseq]
  · intro cs
    simp [size, is_sequence, Node.IsSequence, Node.size]

/-- On a node that is not a scalar `get_leaf` does return: true with the
child stored under the key of a map when that child is defined (the reason is
untouched), false with the reason "The key is not in the node dictionary" and
`leaf` as it was when the map has no such key or the node is not a map. -/
theorem get_leaf_returns (key : String) (leaf : Node) (what : String) :
    (∀ (entries : List (String × Node)) (c : Node), entries.lookup key = some c →
        c.IsDefined = true →
        get_leaf (Node.map entries) key leaf what = Except.ok (true, c, what))
    ∧ (∀ entries : List (String × Node), entries.lookup key = none →
        get_leaf (Node.map entries) key leaf what
          = Except.ok (false, leaf, "The key is not in the node dictionary"))
    ∧ (∀ node : Node, node.IsScalar = false → node.IsMap = false →
        get_leaf node key leaf what
          = Except.ok (false, leaf, "The key is not in the node dictionary")) := by
  refine ⟨?_, ?_, ?_⟩
  · intro entries c hc hd
    simp [get_leaf, Node.subscript, hc, hd]
  · intro entries hc
    simp [get_leaf, Node.subscript, hc, Node.IsDefined]
  · intro node h1 h2
    cases node <;> simp_all [get_leaf, Node.subscript, Node.IsDefined, Node.IsScalar, Node.IsMap]

/-- C14 (evaluation of the code at the failing input): on the scalar node `3`
the subscript `node[key]` throws and `get_leaf` has no handler: the call does
not return false with the reason "The key is not in the node dictionary", it
does not return at all. On the map `{b: 3}` it returns as claimed. -/
theorem C14_get_leaf_throws_on_scalar :
    get_leaf (Node.scalar "3") "k" Node.null "w" = Except.error "operator[] call on a scalar"
    ∧ get_leaf docScalarB "b" Node.null "w" = Except.ok (true, Node.scalar "3", "w")
    ∧ get_leaf docScalarB "z" Node.null "w"
      = Except.ok (false, Node.null, "The key is not in the node dictionary") :=
  ⟨rfl, rfl, rfl⟩

/-- C11, at concrete inputs: the sequence `[1, 2]` read at index 1 as `int`,
a scalar node, the index 2, and the sequence `[[1]]` read at index 0. -/
theorem C11_at_scalar_witness :
    at_ intElem (Node.sequence [Node.scalar "1", Node.scalar "2"]) 1 7 "w"
      = Except.ok (true, 2, "w")
    ∧ at_ intElem (Node.scalar "1") 0 7 "w"
      = Except.ok (false, 7, "The node is not a sequence")
    ∧ at_ intElem (Node.sequence [Node.scalar "1", Node.scalar "2"]) 2 7 "w"
      = Except.ok (false, 7, "The index is out the boundaries")
    ∧ at_ intElem (Node.sequence [Node.sequence [Node.scalar "1"]]) 0 7 "w"
      = Except.ok (false, 7, notScalarReason "int" 0) :=
  ⟨((C11_at_scalar intElem (Node.sequence [Node.scalar "1", Node.scalar "2"]) 1 7 "w").1
      2 "w").2 ⟨by decide, by decide, by decide, rfl, rfl⟩,
    (C11_at_scalar intElem (Node.scalar "1") 0 7 "w").2.1 (by decide),
    (C11_at_scalar intElem (Node.sequence [Node.scalar "1", Node.scalar "2"]) 2 7 "w").2.2.1
      (by decide) (by decide),
    ((C11_at_scalar intElem (Node.sequence [Node.sequence [Node.scalar "1"]]) 0 7 "w").2.2.2
      (by decide) (by decide) (by decide)).1⟩

/-- C12, at a concrete input: the child 1 of `[1, ~]` is the null node. -/
theorem C12_at_node_raw_child_witness :
    at_node (Node.sequence [Node.scalar "1", Node.null]) 1 (Node.scalar "old") "w"
      = (true, Node.null, "w") :=
  (C12_at_node_raw_child 1 (Node.scalar "old") "w").1 [Node.scalar "1", Node.null] (by decide)

/-! ## The dispatch on the kind of a node -/

theorem kinds_exclusive (node : Node) :
    (node.IsSequence = true → node.IsScalar = false)
    ∧ (node.IsMap = true → node.IsScalar = false ∧ node.IsSequence = false) := by
  cases node <;> simp [Node.IsSequence, Node.IsScalar, Node.IsMap]

/-- What `get<T>(node)` does with the decoders `D` it has selected: on a
Scalar, Sequence or Map node it returns the value of the selected decoder and
raises, with the decoder's text, exactly when that decoder reports failure; on
every other kind it raises; with the primary `get_map` every Map node raises. -/
theorem get_node_selected {T : Type} (dump : Node → String) (D : Decoder T) (node : Node) :
    (node.IsScalar = true →
        ((D.get_scalar node D.dflt "").1 = true →
          get_node dump D node = Except.ok (D.get_scalar node D.dflt "").2.1)
        ∧ ((D.get_scalar node D.dflt "").1 = false →
          get_node dump D node = Except.error (D.get_scalar node D.dflt "").2.2))
    ∧ (node.IsSequence = true →
        ((D.get_sequence node D.dflt "").1 = true →
          get_node dump D node = Except.ok (D.get_sequence node D.dflt "").2.1)
        ∧ ((D.get_sequence node D.dflt "").1 = false →
          get_node dump D node = Except.error (D.get_sequence node D.dflt "").2.2))
    ∧ (node.IsMap = true →
        ((D.get_map node D.dflt "").1 = true →
          get_node dump D node = Except.ok (D.get_map node D.dflt "").2.1)
        ∧ ((D.get_map node D.dflt "").1 = false →
          get_node dump D node = Except.error (D.get_map node D.dflt "").2.2))
    ∧ (node.IsScalar = false → node.IsSequence = false → node.IsMap = false →
        ∃ msg, get_node dump D node = Except.error msg)
    ∧ (∀ name, D.get_map = get_map dump name → node.IsMap = true →
        ∃ msg, get_node dump D node = Except.error msg) := by
  obtain ⟨hk1, hk2⟩ := kinds_exclusive node
  refine ⟨?_, ?_, ?_, ?_, ?_⟩
  · intro hs
    constructor <;> intro h <;> simp [get_node, hs, h]
  · intro hs
    have h1 := hk1 hs
    constructor <;> intro h <;> simp [get_node, hs, h1, h]
  · intro hs
    obtain ⟨h1, h2⟩ := hk2 hs
    constructor <;> intro h <;> simp [get_node, hs, h1, h2, h]
  · intro h1 h2 h3
    exact ⟨_, by simp [get_node, h1, h2, h3]; rfl⟩
  · intro name hname hs
    obtain ⟨h1, h2⟩ := hk2 hs
    exact ⟨_, by simp [get_node, hs, h1, h2, hname, get_map]; rfl⟩

/-- C16 (evaluation of the code at the failing input): on the sequence node
`[1, 2, 3]` the Structural Decoder for `std::vector<int>` succeeds, but
`get<std::vector<int>>(node)` raises "The type ' std::vector<int>' is not
supported...": line 313 names the template argument, so the call reaches the
primary template `get_sequence<T>` and not the overload for `std::vector<T>`. -/
theorem C16_get_node_sequence_reaches_primary_template :
    (Node.sequence [Node.scalar "1", Node.scalar "2", Node.scalar "3"]).IsSequence = true
    ∧ (get_sequence_vector sampleDump intElem
        (Node.sequence [Node.scalar "1", Node.scalar "2", Node.scalar "3"]) [] "").1 = true
    ∧ get_node sampleDump (vectorDecoder sampleDump intElem)
        (Node.sequence [Node.scalar "1", Node.scalar "2", Node.scalar "3"])
      = Except.error ("The type ' std::vector<int>' is not supported. "
          ++ "You must specilized your own 'get_sequence' template function") := by
  decide

/-! ## Nested sequences -/

/-- One step of the nested loop, with the inner call named. -/
theorem get_sequence_vector_vector_loop_cons {T : Type} (dump : Node → String)
    (E : ElemDecoder T) (node c : Node) (rest : List Node) (i : Nat) (ok : Bool)
    (ret : List (List T)) (what : String) :
    ∃ r : Bool × List T × String,
      r = get_sequence_vector dump E c []
            (if !c.IsSequence then
              what ++ notSequenceDiagnostic dump "get_sequence" 528 E.pretty_name node
            else what)
      ∧ get_sequence_vector_vector_loop dump E node (c :: rest) i ok ret what
        = if r.1 = false then
            (r.1, ret,
              r.2.2 ++ elementDiagnostic dump "get_sequence" 539 E.vector_pretty_name i node)
          else
            get_sequence_vector_vector_loop dump E node rest (i + 1) r.1 (ret ++ [r.2.1]) r.2.2
    := by
  refine ⟨_, rfl, ?_⟩
  simp [get_sequence_vector_vector_loop]

/-- The nested loop only appends to `ret`: a vector that is not empty when the
loop starts is not empty when it ends. -/
theorem get_sequence_vector_vector_loop_nonempty {T : Type} (dump : Node → String)
    (E : ElemDecoder T) (node : Node) (rest : List Node) :
    ∀ (i : Nat) (ok : Bool) (ret : List (List T)) (what : String), ret ≠ [] →
      (get_sequence_vector_vector_loop dump E node rest i ok ret what).2.1 ≠ [] := by
  induction rest with
  | nil => intro i ok ret what h; simpa [get_sequence_vector_vector_loop] using h
  | cons c rest ih =>
    intro i ok ret what h
    obtain ⟨r, _, hstep⟩ := get_sequence_vector_vector_loop_cons dump E node c rest i ok ret what
    rw [hstep]
    by_cases hr : r.1 = false
    · rw [if_pos hr]; exact h
    · rw [if_neg hr]; exact ih _ _ _ _ (by simp)

/-- When the nested loop, entered with `ok = false`, ends with `ok = true`,
the vector it leaves is not empty. -/
theorem get_sequence_vector_vector_loop_true {T : Type} (dump : Node → String)
    (E : ElemDecoder T) (node : Node) (rest : List Node) (i : Nat) (ret : List (List T))
    (what : String)
    (h : (get_sequence_vector_vector_loop dump E node rest i false ret what).1 = true) :
    (get_sequence_vector_vector_loop dump E node rest i false ret what).2.1 ≠ [] := by
  cases rest with
  | nil => simp [get_sequence_vector_vector_loop] at h
  | cons c rest =>
    obtain ⟨r, _, hstep⟩ :=
      get_sequence_vector_vector_loop_cons dump E node c rest i false ret what
    rw [hstep] at h ⊢
    by_cases hr : r.1 = false
    · rw [if_pos hr] at h
      simp [hr] at h
    · rw [if_neg hr]
      exact get_sequence_vector_vector_loop_nonempty dump E node rest _ _ _ _ (by simp)

/-- Whenever `get_sequence` into `std::vector<std::vector<T>>` returns true,
the vector it leaves is not empty. -/
theorem get_sequence_vector_vector_true_nonempty {T : Type} (dump : Node → String)
    (E : ElemDecoder T) (node : Node) (ret : List (List T)) (what : String)
    (h : (get_sequence_vector_vector dump E node ret what).1 = true) :
    (get_sequence_vector_vector dump E node ret what).2.1 ≠ [] := by
  unfold get_sequence_vector_vector at h ⊢
  cases hseq : node.IsSequence with
  | false => simp [hseq] at h
  | true =>
    simp only [hseq, Bool.not_true, Bool.false_eq_true, if_false] at h ⊢
    exact get_sequence_vector_vector_loop_true dump E node _ _ _ _ h

/-- A child that is not a sequence makes the nested loop end with `ok = false`. -/
theorem get_sequence_vector_vector_loop_non_sequence {T : Type} (dump : Node → String)
    (E : ElemDecoder T) (node : Node) (rest : List Node)
    (h : ∃ c ∈ rest, c.IsSequence = false) :
    ∀ (i : Nat) (ok : Bool) (ret : List (List T)) (what : String),
      (get_sequence_vector_vector_loop dump E node rest i ok ret what).1 = false := by
  induction rest with
  | nil => obtain ⟨c, hc, _⟩ := h; simp at hc
  | cons c rest ih =>
    intro i ok ret what
    obtain ⟨r, hrdef, hstep⟩ :=
      get_sequence_vector_vector_loop_cons dump E node c rest i ok ret what
    rw [hstep]
    by_cases hr : r.1 = false
    · rw [if_pos hr]; exact hr
    · rw [if_neg hr]
      obtain ⟨d, hd, hds⟩ := h
      rcases List.mem_cons.mp hd with hdc | hdr
      · subst hdc
        exfalso
        apply hr
        rw [hrdef]
        simp [get_sequence_vector, hds]
      · exact ih ⟨d, hdr, hds⟩ _ _ _ _

/-- The row-copy loop can only leave defined behaviour through `copy_n`. -/
theorem copy_rows_error {T : Type} (tmp : List (List T)) (M : Nat) (idx : List Nat) :
    ∀ (ret : List (List T)) (u : Undefined),
      copy_rows tmp M idx ret = Except.error u → u = Undefined.copy_n_past_the_end := by
  induction idx with
  | nil => intro ret u h; simp [copy_rows] at h
  | cons i rest ih =>
    intro ret u h
    simp only [copy_rows] at h
    split at h
    · simp at h; exact h.symm
    · exact ih _ _ h

/-- C17 (evaluation of the code at failing inputs): on the empty sequence
`[]`, all of whose children are sequences, `get_sequence` into
`std::vector<std::vector<int>>` returns false (the flag is only ever set
inside the loop); on `[[x]]`, whose row holds an element that cannot be
decoded as `int`, it returns true. -/
theorem C17_get_sequence_nested_empty_and_bad_element :
    (get_sequence_vector_vector sampleDump intElem (Node.sequence []) [] "").1 = false
    ∧ (get_sequence_vector_vector sampleDump intElem rowsBadElement [] "").1 = true
    ∧ (get_sequence_vector_vector sampleDump intElem rowsBadElement [] "").2.1 = [[], [0]] := by
  decide

/-- C18 (evaluation of the code at failing inputs), for
`std::array<std::array<int,2>,2>` holding `[[7, 7], [7, 7]]` before the call.
On `[[1, 2], [3, 1]]`, whose shape is 2 x 2, the code writes the size
diagnostic, returns true, and the array of the caller still holds
`[[7, 7], [7, 7]]`; on `[[1], [2], [3]]`, whose shape is 3 x 1, it returns
true as well. With `N = 2`, `M = 0` the copy branch is taken on `[[1]]`, and
the array of the caller is unchanged too: the array is passed by value. -/
theorem C18_get_sequence_array_array_flag_and_target :
    get_sequence_array_array sampleDump intElem 2 2 rows22 [[7, 7], [7, 7]] ""
      = Except.ok (true, [[7, 7], [7, 7]],
          sizeDiagnostic sampleDump "get_sequence" 593 "int" rows22)
    ∧ get_sequence_array_array sampleDump intElem 2 2 rows31 [[7, 7], [7, 7]] ""
      = Except.ok (true, [[7, 7], [7, 7]],
          sizeDiagnostic sampleDump "get_sequence" 593 "int" rows31)
    ∧ get_sequence_array_array sampleDump intElem 2 0
        (Node.sequence [Node.sequence [Node.scalar "1"]]) [[], []] ""
      = Except.ok (true, [[], []], "") := by
  decide

/-- C20: whenever `get_sequence` into `std::vector<std::vector<T>>` returns
true its output vector is not empty; hence, for every input node, neither the
overload for `std::array<std::array<T,M>,N>` nor the linear-algebra overload
evaluates `front()` on an empty vector. -/
theorem C20_front_on_nonempty_vector {T : Type} (dump : Node → String) (E : ElemDecoder T)
    (node : Node) (ret : List (List T)) (what : String) (N M : Nat) (target : List (List T))
    (_ret : Matrix T) :
    ((get_sequence_vector_vector dump E node ret what).1 = true →
        (get_sequence_vector_vector dump E node ret what).2.1 ≠ [])
    ∧ get_sequence_array_array dump E N M node target what
        ≠ Except.error Undefined.front_of_empty_vector
    ∧ get_sequence_eigen dump E node _ret what ≠ none := by
  refine ⟨get_sequence_vector_vector_true_nonempty dump E node ret what, ?_, ?_⟩
  · have hne := get_sequence_vector_vector_true_nonempty dump E node [] what
    intro h
    unfold get_sequence_array_array at h
    simp only [] at h
    split at h
    · simp at h
    · rename_i hcond
      split at h
      · rename_i heq
        simp only [Bool.or_eq_true, Bool.not_eq_true', not_or] at hcond
        exact hne (by simpa using hcond.1) heq
      · split at h
        · simp at h
        · split at h
          · rename_i u hcopy
            have hu := copy_rows_error _ _ _ _ _ hcopy
            rw [hu] at h
            simp at h
          · simp at h
  · have hne := get_sequence_vector_vector_true_nonempty dump E node [] what
    intro h
    unfold get_sequence_eigen at h
    simp only [] at h
    split at h
    · repeat' (first | (simp at h; done) | split at h)
    · split at h
      · simp at h
      · rename_i hok
        split at h
        · rename_i heq
          exact hne (by simpa using hok) heq
        · repeat' (first | (simp at h; done) | split at h)

/-! ## The reason and the value left by a failed lookup -/

/-- C19 (counterexample to the claim as stated): the key `a/b` is present and
its scalar `hello` cannot be decoded as `int`; with `ret` holding 7 before the
call, `get<int>(key, ret, what)` returns false and `ret` still holds 7, which
is not the default-constructed `int`. -/
theorem C19_ret_not_default_counterexample :
    (has (sampleLoader docTextB) "a/b" "").1 = true
    ∧ (recover (sampleLoader docTextB) "a/b" Node.null "").1 = true
    ∧ get_node sampleDump intDecoder (recover (sampleLoader docTextB) "a/b" Node.null "").2.1
        = Except.error ""
    ∧ get sampleDump intDecoder (sampleLoader docTextB) "a/b" 7 ""
        = (false, 7, "Failed in getting the Node struct from parameter 'a/b':\n")
    ∧ (get sampleDump intDecoder (sampleLoader docTextB) "a/b" 7 "").2.1 ≠ intDecoder.dflt := by
  decide

/-- C19 (amended): for a present key whose node cannot be decoded as `T`
(`get<T>(node)` throws with the inner message `msg`) and every value `ret`
held before the call, `get<T>(key, ret, what)` returns false, sets the reason
to "Failed in getting the Node struct from parameter '<key>':" followed by a
line break and the inner message, and leaves `ret` as it was before the call. -/
theorem C19_decode_failure_keeps_ret {T : Type} (dump : Node → String) (D : Decoder T)
    (L : Loader) (key : String) (ret : T) (what : String) (msg : String)
    (hhas : (has L key what).1 = true)
    (hrec : (recover L key Node.null what).1 = true)
    (hfail : get_node dump D (recover L key Node.null what).2.1 = Except.error msg) :
    get dump D L key ret what
      = (false, ret, "Failed in getting the Node struct from parameter '" ++ key ++ "':\n" ++ msg)
    := by
  have hw := has_true_what L key what hhas
  simp [get, hhas, hw, hrec, hfail]

/-- C19 (amended), at a concrete input: the key `a/b` on the document
`{b: hello}`, read as `int` with `ret` holding 7 and the reason "why". -/
theorem C19_decode_failure_keeps_ret_witness :
    (has (sampleLoader docTextB) "a/b" "why").1 = true
    ∧ (recover (sampleLoader docTextB) "a/b" Node.null "why").1 = true
    ∧ get_node sampleDump intDecoder (recover (sampleLoader docTextB) "a/b" Node.null "why").2.1
        = Except.error ""
    ∧ get sampleDump intDecoder (sampleLoader docTextB) "a/b" 7 "why"
        = (false, 7,
            "Failed in getting the Node struct from parameter '" ++ "a/b" ++ "':\n" ++ "") :=
  ⟨by decide, by decide, by decide,
    C19_decode_failure_keeps_ret sampleDump intDecoder (sampleLoader docTextB) "a/b" 7 "why" ""
      (by decide) (by decide) (by decide)⟩

theorem keeps_reason_append (what s : String) : keeps_reason what (what ++ s) := by
  unfold keeps_reason
  rw [String.data_append]
  exact List.prefix_append _ _

theorem keeps_reason_refl (what : String) : keeps_reason what what :=
  List.prefix_refl _

theorem keeps_reason_trans {a b c : String} (h1 : keeps_reason a b) (h2 : keeps_reason b c) :
    keeps_reason a c :=
  List.IsPrefix.trans h1 h2

theorem keeps_reason_lineBreak (what s : String) : keeps_reason what (lineBreak what ++ s) := by
  unfold lineBreak
  by_cases h : what.length = 0
  · have hd : what.data = [] := List.length_eq_zero.mp h
    unfold keeps_reason
    rw [hd]
    exact List.nil_prefix
  · have h2 : (what.length != 0) = true := by simpa using h
    rw [if_pos h2, String.append_assoc]
    exact keeps_reason_append _ _

theorem keeps_reason_has (L : Loader) (key what : String) :
    keeps_reason what (has L key what).2 := by
  unfold has absolutepath
  cases hg : L.getenv with
  | none => simpa using keeps_reason_lineBreak what _
  | some env_p =>
    simp only []
    by_cases hc : (L.checkfilepath (L.path env_p (strip_slashes key ++ ".yaml"))).1 = true
    · simpa [hc] using keeps_reason_refl what
    · simp only [hc, Bool.not_eq_true, Bool.not_false, if_true, String.append_assoc]
      simpa using keeps_reason_lineBreak what _

/-- C15 (evaluation of the code at failing inputs): with the reason holding
"earlier reason" before the call, both `get` overloads on a present key whose
scalar does not convert to `int` (lines 172 and 207), `get_leaf` on a map
without the key, and `at<node_t>` and `at<int>` on a node that is not a
sequence, leave a reason that does not begin with "earlier reason": each of
them assigns the reason. `has` on a key without file keeps it. -/
theorem C15_reason_overwritten :
    get sampleDump intDecoder (sampleLoader docTextB) "a/b" 7 "earlier reason"
      = (false, 7, "Failed in getting the Node struct from parameter 'a/b':\n")
    ∧ ¬ keeps_reason "earlier reason"
        (get sampleDump intDecoder (sampleLoader docTextB) "a/b" 7 "earlier reason").2.2
    ∧ ¬ keeps_reason "earlier reason"
        (get_default sampleDump intDecoder keepShape (sampleLoader docTextB) "a/b" 7
          "earlier reason" 42).2.2
    ∧ (get_leaf (Node.map []) "k" Node.null "earlier reason").map (fun r => (r.1, r.2.2))
      = Except.ok (false, "The key is not in the node dictionary")
    ∧ ¬ keeps_reason "earlier reason" "The key is not in the node dictionary"
    ∧ ¬ keeps_reason "earlier reason" (at_node Node.null 0 Node.null "earlier reason").2.2
    ∧ at_ intElem Node.null 0 7 "earlier reason"
        = Except.ok (false, 7, "The node is not a sequence")
    ∧ ¬ keeps_reason "earlier reason" "The node is not a sequence"
    ∧ keeps_reason "earlier reason" (has (sampleLoader docTextB) "a/c" "earlier reason").2 := by
  decide

/-- C20, at a concrete input: the nested decode of `[[1, 2], [3, 1]]` returns
true and leaves a vector that is not empty. -/
theorem C20_front_on_nonempty_vector_witness :
    (get_sequence_vector_vector sampleDump intElem rows22 [] "").1 = true
    ∧ (get_sequence_vector_vector sampleDump intElem rows22 [] "").2.1 ≠ [] :=
  ⟨by decide,
    (C20_front_on_nonempty_vector sampleDump intElem rows22 [] "" 2 2 [] (Matrix.mk 2 2 2 2
      (fun _ _ => 0))).1 (by decide)⟩

/-! ## Children that are not decoded -/

/-- The loop over children that are all successfully decoded (of whatever
kind) appends their values, in order, and leaves the flag true. -/
theorem get_sequence_vector_loop_decoded {T : Type} (dump : Node → String) (E : ElemDecoder T)
    (node : Node) (pre rest : List Node)
    (h : ∀ p ∈ pre, ∃ v, selected E p = some (Decoded.returned true v)) :
    ∀ (i : Nat) (ok : Bool) (ret : List T) (what : String),
      get_sequence_vector_loop dump E node (pre ++ rest) i ok ret what
        = get_sequence_vector_loop dump E node rest (i + pre.length)
            (if pre.isEmpty then ok else true) (ret ++ pre.map (decodedValue E)) what := by
  induction pre with
  | nil => intro i ok ret what; simp
  | cons p pre ih =>
    intro i ok ret what
    obtain ⟨v, hv⟩ := h p (List.mem_cons_self p pre)
    have hpre : ∀ q ∈ pre, ∃ v, selected E q = some (Decoded.returned true v) :=
      fun q hq => h q (List.mem_cons_of_mem _ hq)
    have hval : decodedValue E p = v := by simp [decodedValue, hv]
    have hstep : get_sequence_vector_loop dump E node (p :: (pre ++ rest)) i ok ret what
        = get_sequence_vector_loop dump E node (pre ++ rest) (i + 1) true (ret ++ [v]) what := by
      unfold selected at hv
      by_cases h1 : p.IsScalar = true
      · simp [h1] at hv
        simp [get_sequence_vector_loop, h1, hv]
      · by_cases h2 : p.IsSequence = true
        · simp [h1, h2] at hv
          simp [get_sequence_vector_loop, h1, h2, hv]
        · by_cases h3 : p.IsMap = true
          · simp [h1, h2, h3] at hv
            simp [get_sequence_vector_loop, h1, h2, h3, hv]
          · simp [h1, h2, h3] at hv
    rw [List.cons_append, hstep, ih hpre]
    have harith : i + 1 + pre.length = i + (p :: pre).length := by
      simp [List.length_cons]; omega
    rw [harith]
    simp [hval]

/-- C21: a child `c` of `get_sequence` into `std::vector<T>` whose kind is none
of Scalar, Sequence and Map is not decoded and inherits the flag left by the
previous child. When it is the first child, the loop stops at index 0 with the
element diagnostic (nothing is appended). When the loop reaches it with the
flag true, it is appended as `T()` with no diagnostic and the loop goes on; so
in every sequence `pre ++ c :: post` whose children `pre` (at least one) are
all successfully decoded, the values of `pre` and then `T()` are appended with
no diagnostic, and the loop goes on with `post`. -/
theorem C21_null_child_inherits_flag {T : Type} (dump : Node → String) (E : ElemDecoder T)
    (c : Node) (hscalar : c.IsScalar = false) (hsequence : c.IsSequence = false)
    (hmap : c.IsMap = false) :
    selected E c = none
    ∧ (∀ (node : Node) (rest : List Node) (ret : List T) (what : String),
        get_sequence_vector_loop dump E node (c :: rest) 0 false ret what
          = LoopExit.mk false false ret
              (what ++ elementDiagnostic dump "get_sequence" 487 E.vector_pretty_name 0 node))
    ∧ (∀ (node : Node) (rest : List Node) (i : Nat) (ret : List T) (what : String),
        get_sequence_vector_loop dump E node (c :: rest) i true ret what
          = get_sequence_vector_loop dump E node rest (i + 1) true (ret ++ [E.dflt]) what)
    ∧ (∀ (pre post : List Node) (ret : List T) (what : String), pre ≠ [] →
        (∀ p ∈ pre, ∃ v, selected E p = some (Decoded.returned true v)) →
        get_sequence_vector dump E (Node.sequence (pre ++ c :: post)) ret what
          = afterLoop (get_sequence_vector_loop dump E (Node.sequence (pre ++ c :: post)) post
              (pre.length + 1) true
              (List.replicate (pre.length + (post.length + 1)) E.dflt
                ++ pre.map (decodedValue E) ++ [E.dflt])
              what)) := by
  have hstep : ∀ (node : Node) (rest : List Node) (i : Nat) (ret : List T) (what : String),
      get_sequence_vector_loop dump E node (c :: rest) i true ret what
        = get_sequence_vector_loop dump E node rest (i + 1) true (ret ++ [E.dflt]) what := by
    intro node rest i ret what
    simp [get_sequence_vector_loop, hscalar, hsequence, hmap]
  refine ⟨by simp [selected, hscalar, hsequence, hmap], ?_, hstep, ?_⟩
  · intro node rest ret what
    simp [get_sequence_vector_loop, hscalar, hsequence, hmap]
  · intro pre post ret what hne hpre
    have hloop := get_sequence_vector_loop_decoded dump E (Node.sequence (pre ++ c :: post))
      pre (c :: post) hpre 0 false
      (List.replicate (pre.length + (post.length + 1)) E.dflt) what
    have hemp : pre.isEmpty = false := by
      cases pre with
      | nil => exact absurd rfl hne
      | cons _ _ => rfl
    simp only [hemp, Bool.false_eq_true, if_false, Nat.zero_add] at hloop
    rw [hstep] at hloop
    simp only [get_sequence_vector, Node.IsSequence, Bool.not_true, Bool.false_eq_true, if_false,
      Node.size, Node.children, vector_resize_nil, List.length_append, List.length_cons,
      afterLoop]
    rw [hloop]

/-- C21, at concrete inputs: in `[1, ~, 2]` the null child follows the decoded
child `1` and is appended as 0 with no diagnostic, so `ret` ends as the three
value-initialised elements followed by `1, 0, 2`; in `[~, 1]` the loop stops
at index 0 with the element diagnostic and nothing is appended. -/
theorem C21_null_child_inherits_flag_witness :
    Node.null.IsScalar = false ∧ Node.null.IsSequence = false ∧ Node.null.IsMap = false
    ∧ get_sequence_vector sampleDump intElem
        (Node.sequence [Node.scalar "1", Node.null, Node.scalar "2"]) [] ""
      = (true, [0, 0, 0, 1, 0, 2], "")
    ∧ get_sequence_vector_loop sampleDump intElem (Node.sequence [Node.null, Node.scalar "1"])
        [Node.null, Node.scalar "1"] 0 false [0, 0] ""
      = LoopExit.mk false false [0, 0]
          ("" ++ elementDiagnostic sampleDump "get_sequence" 487 intElem.vector_pretty_name 0
            (Node.sequence [Node.null, Node.scalar "1"])) :=
  ⟨rfl, rfl, rfl, by decide,
    (C21_null_child_inherits_flag sampleDump intElem Node.null rfl rfl rfl).2.1
      (Node.sequence [Node.null, Node.scalar "1"]) [Node.scalar "1"] [0, 0] ""⟩

/-- C22 (evaluation of the code at the failing input): for `std::array<int,5>`
and the sequence `[1]` the intermediate vector is `[0, 1]`; its length 2
differs from 5, so the copy branch is taken, and `copy_n` of 5 elements reads
past the end of a vector of 2 (the outcome `none`). The same happens for
`std::array<int,1>` on the empty sequence. -/
theorem C22_copy_n_reads_past_the_end :
    get_sequence_vector sampleDump intElem (Node.sequence [Node.scalar "1"]) [] ""
      = (true, [0, 1], "")
    ∧ copy_n [(0 : Int), 1] 5 [7, 7, 7, 7, 7] = none
    ∧ get_sequence_array sampleDump intElem 5 (Node.sequence [Node.scalar "1"])
        [7, 7, 7, 7, 7] "" = none
    ∧ get_sequence_array sampleDump intElem 1 (Node.sequence []) [7] "" = none := by
  decide

end cnr.param
